import Mathlib

/-
Verification of the signus command core (src/src/commands/signus/mod.rs)
against its natural-language specification.

The file shallowly embeds the Rust source: the seven-variant SignusCommand
enum, the SignusCommandExecutor with its three held services, and the
operation handlers.  Completion callbacks are modelled by a numeric callback
identifier; an execution produces the list of callback invocations (callback
id paired with the delivered result), so exactly-once delivery and the
delivered value are both visible.  Parts of the repository that the source
file only declares or imports (the DIDInfo JSON type, the SignusError type,
the Signus trait implementation) are modelled from the specification and
marked as such in their doc comments.
-/

set_option linter.unusedVariables false

/-- Modelled from the spec: the error kinds of section 7.  The Rust type
SignusError lives in errors/signus.rs, which is not part of the sources;
only its name is imported by the signus module. -/
inductive SignusError where
  | InvalidIdentityJson
  | InvalidSeedLength
  | DidAlreadyExists
  | DidNotFound
  | UnknownDid
  | InvalidSignatureFormat
  | DecryptionFailed
  | QueueFull
  | StorageUnavailable
deriving DecidableEq

/-- Modelled from the spec: errors of the cryptographic layer.  The Rust type
CryptoError lives in errors/crypto.rs, which is not part of the sources. -/
inductive CryptoError where
  | DecryptionFailed
deriving DecidableEq

/-- The DID creation request carried by create_and_store_my_did: an object
with optional did, optional seed, optional crypto_type.  The Rust struct is
declared in commands/signus/types.rs, which is not part of the sources. -/
structure DIDInfo where
  did : Option String
  seed : Option String
  crypto_type : Option String
deriving DecidableEq

def dquoteChar : Char := Char.ofNat 34

def bslashChar : Char := Char.ofNat 92

def lbraceChar : Char := Char.ofNat 123

def rbraceChar : Char := Char.ofNat 125

def isJsonWs (c : Char) : Bool :=
  c == ' ' || c == Char.ofNat 9 || c == Char.ofNat 10 || c == Char.ofNat 13

def skipWs : List Char → List Char
  | [] => []
  | c :: cs => if isJsonWs c then skipWs cs else c :: cs

/-- Reads the body of a JSON string literal up to its closing quote; the
opening quote has already been consumed.  Escape sequences are not part of
the model, so a backslash fails the parse. -/
def readStr : List Char → Option (List Char × List Char)
  | [] => none
  | c :: cs =>
    if c = dquoteChar then some ([], cs)
    else if c = bslashChar then none
    else
      match readStr cs with
      | some (s, rest) => some (c :: s, rest)
      | none => none

/-- Parses the members of a flat JSON object with string keys and string
values, consuming the closing brace.  Fuel bounds the recursion; any fuel of
at least the input length is enough, since each member consumes characters. -/
def parseMembers : Nat → List Char → Option (List (String × String) × List Char)
  | 0, _ => none
  | fuel + 1, input =>
    match skipWs input with
    | [] => none
    | c :: cs =>
      if c = dquoteChar then
        match readStr cs with
        | none => none
        | some (k, rest) =>
          match skipWs rest with
          | [] => none
          | c2 :: cs2 =>
            if c2 = ':' then
              match skipWs cs2 with
              | [] => none
              | c3 :: cs3 =>
                if c3 = dquoteChar then
                  match readStr cs3 with
                  | none => none
                  | some (v, rest2) =>
                    match skipWs rest2 with
                    | [] => none
                    | c4 :: cs4 =>
                      if c4 = ',' then
                        match parseMembers fuel cs4 with
                        | some (ms, rest3) =>
                          some ((String.mk k, String.mk v) :: ms, rest3)
                        | none => none
                      else if c4 = rbraceChar then
                        some ([(String.mk k, String.mk v)], cs4)
                      else none
                else none
            else none
      else none

/-- Modelled from the spec: the JSON shape of section 6 is a flat object of
optional string fields, so the parse model accepts exactly the flat objects
with string keys and string values (and nothing but whitespace around them). -/
def parseFlatObject (s : String) : Option (List (String × String)) :=
  match skipWs s.data with
  | [] => none
  | c :: cs =>
    if c = lbraceChar then
      match skipWs cs with
      | [] => none
      | c2 :: cs2 =>
        if c2 = rbraceChar then
          if (skipWs cs2).isEmpty then some [] else none
        else
          match parseMembers (cs.length + 1) (c2 :: cs2) with
          | some (ms, rest) => if (skipWs rest).isEmpty then some ms else none
          | none => none
    else none

def lookupField (ms : List (String × String)) (k : String) : Option String :=
  match ms.find? (fun m => m.1 == k) with
  | some m => some m.2
  | none => none

/-- Modelled from the spec: DIDInfo::from_json (via utils/json, not part of
the sources) parses the DID creation request; per section 4.4 a parse
failure surfaces as InvalidIdentityJson. -/
def DIDInfo.from_json (j : String) : Except SignusError DIDInfo :=
  match parseFlatObject j with
  | some ms =>
    Except.ok
      { did := lookupField ms "did"
        seed := lookupField ms "seed"
        crypto_type := lookupField ms "crypto_type" }
  | none => Except.error SignusError.InvalidIdentityJson

/-- Opaque stand-in for services/anoncreds; the executor only holds it. -/
structure AnoncredsService where
  svcId : Nat
deriving DecidableEq

/-- Opaque stand-in for services/pool; the executor only holds it. -/
structure PoolService where
  svcId : Nat
deriving DecidableEq

/-- Opaque stand-in for services/wallet; the executor only holds it. -/
structure WalletService where
  svcId : Nat
deriving DecidableEq

/-- The payload delivered on the success path of a callback: each command
variant has its own payload type in the source, collected here in one sum. -/
inductive SignusResultValue where
  | triple : String → String → String → SignusResultValue
  | pair : String → String → SignusResultValue
  | unit : SignusResultValue
  | str : String → SignusResultValue
  | bool : Bool → SignusResultValue
deriving DecidableEq

/-- One callback invocation: the callback identifier and the result it was
handed.  An execution is modelled as the list of invocations it performs. -/
abbrev CallbackEvent := Nat × Except SignusError SignusResultValue

def isOkE {ε α : Type} : Except ε α → Bool
  | Except.ok _ => true
  | Except.error _ => false

/-- The SignusCommand enum of the source; each variant carries its
parameters and its completion callback, here a callback identifier. -/
inductive SignusCommand where
  | CreateAndStoreMyDid (walletHandle : Int) (didJson : String) (cb : Nat)
  | ReplaceKeys (walletHandle : Int) (identityJson : String) (did : String) (cb : Nat)
  | StoreTheirDid (walletHandle : Int) (identityJson : String) (cb : Nat)
  | Sign (walletHandle : Int) (did : String) (msg : String) (cb : Nat)
  | VerifySignature (walletHandle : Int) (did : String) (msg : String) (signature : String) (cb : Nat)
  | Encrypt (walletHandle : Int) (did : String) (msg : String) (cb : Nat)
  | Decrypt (walletHandle : Int) (did : String) (encryptedMsg : String) (cb : Nat)
deriving DecidableEq

def SignusCommand.cbId : SignusCommand → Nat
  | CreateAndStoreMyDid _ _ cb => cb
  | ReplaceKeys _ _ _ cb => cb
  | StoreTheirDid _ _ cb => cb
  | Sign _ _ _ cb => cb
  | VerifySignature _ _ _ _ cb => cb
  | Encrypt _ _ _ cb => cb
  | Decrypt _ _ _ cb => cb

/-- The executor struct: three reference-counted services, nothing else. -/
structure SignusCommandExecutor where
  anoncreds_service : AnoncredsService
  pool_service : PoolService
  wallet_service : WalletService
deriving DecidableEq

def SignusCommandExecutor.new (anoncreds_service : AnoncredsService)
    (pool_service : PoolService) (wallet_service : WalletService) :
    SignusCommandExecutor :=
  { anoncreds_service := anoncreds_service
    pool_service := pool_service
    wallet_service := wallet_service }

def SignusCommandExecutor._create_and_store_my_did (self : SignusCommandExecutor)
    (walled_handle : Int) (did_json : String) :
    Except SignusError (String × String × String) :=
  match DIDInfo.from_json did_json with
  | Except.error e => Except.error e
  | Except.ok did_info => Except.ok ("", "", "")

def SignusCommandExecutor.create_and_store_my_did (self : SignusCommandExecutor)
    (walled_handle : Int) (did_json : String) (cb : Nat) : List CallbackEvent :=
  [(cb, (self._create_and_store_my_did walled_handle did_json).map
      (fun r => SignusResultValue.triple r.1 r.2.1 r.2.2))]

def SignusCommandExecutor.replace_keys (self : SignusCommandExecutor)
    (walled_handle : Int) (identity_json : String) (did : String) (cb : Nat) :
    List CallbackEvent :=
  [(cb, Except.ok (SignusResultValue.pair "" ""))]

def SignusCommandExecutor.store_their_did (self : SignusCommandExecutor)
    (walled_handle : Int) (identity_json : String) (cb : Nat) :
    List CallbackEvent :=
  [(cb, Except.ok SignusResultValue.unit)]

def SignusCommandExecutor.sign (self : SignusCommandExecutor)
    (walled_handle : Int) (did : String) (msg : String) (cb : Nat) :
    List CallbackEvent :=
  [(cb, Except.ok (SignusResultValue.str ""))]

def SignusCommandExecutor.verify_signature (self : SignusCommandExecutor)
    (walled_handle : Int) (did : String) (msg : String) (signature : String)
    (cb : Nat) : List CallbackEvent :=
  [(cb, Except.ok (SignusResultValue.bool true))]

def SignusCommandExecutor.encrypt (self : SignusCommandExecutor)
    (walled_handle : Int) (did : String) (msg : String) (cb : Nat) :
    List CallbackEvent :=
  [(cb, Except.ok (SignusResultValue.str ""))]

def SignusCommandExecutor.decrypt (self : SignusCommandExecutor)
    (walled_handle : Int) (did : String) (encrypted_msg : String) (cb : Nat) :
    List CallbackEvent :=
  [(cb, Except.ok (SignusResultValue.str ""))]

/-- The dispatch of SignusCommandExecutor::execute: one match over the seven
variants, each arm forwarding to the matching handler. -/
def SignusCommandExecutor.execute (self : SignusCommandExecutor)
    (command : SignusCommand) : List CallbackEvent :=
  match command with
  | SignusCommand.CreateAndStoreMyDid wh dj cb => self.create_and_store_my_did wh dj cb
  | SignusCommand.ReplaceKeys wh ij did cb => self.replace_keys wh ij did cb
  | SignusCommand.StoreTheirDid wh ij cb => self.store_their_did wh ij cb
  | SignusCommand.Sign wh did msg cb => self.sign wh did msg cb
  | SignusCommand.VerifySignature wh did msg sg cb => self.verify_signature wh did msg sg cb
  | SignusCommand.Encrypt wh did msg cb => self.encrypt wh did msg cb
  | SignusCommand.Decrypt wh did em cb => self.decrypt wh did em cb

/-- State-passing form of execute: the source method takes the executor by
shared reference and no handler assigns to a field, so every arm returns the
executor it received alongside the callback trace. -/
def SignusCommandExecutor.executeSt (self : SignusCommandExecutor)
    (command : SignusCommand) : SignusCommandExecutor × List CallbackEvent :=
  match command with
  | SignusCommand.CreateAndStoreMyDid wh dj cb => (self, self.create_and_store_my_did wh dj cb)
  | SignusCommand.ReplaceKeys wh ij did cb => (self, self.replace_keys wh ij did cb)
  | SignusCommand.StoreTheirDid wh ij cb => (self, self.store_their_did wh ij cb)
  | SignusCommand.Sign wh did msg cb => (self, self.sign wh did msg cb)
  | SignusCommand.VerifySignature wh did msg sg cb => (self, self.verify_signature wh did msg sg cb)
  | SignusCommand.Encrypt wh did msg cb => (self, self.encrypt wh did msg cb)
  | SignusCommand.Decrypt wh did em cb => (self, self.decrypt wh did em cb)

def exampleExecutor : SignusCommandExecutor :=
  SignusCommandExecutor.new ⟨0⟩ ⟨0⟩ ⟨0⟩

/-- C1: executing any of the seven command variants performs exactly one
callback invocation, on that command's own callback, on the success and the
failure path alike. -/
theorem signus_execute_invokes_callback_exactly_once
    (ex : SignusCommandExecutor) (command : SignusCommand) :
    (ex.execute command).map Prod.fst = [command.cbId] := by
  cases command <;> rfl

/-- C2: the verify_signature handler delivers success(true) to its callback
for every input whatsoever; in particular a signature produced under a
non-matching key is also answered with success(true), not success(false). -/
theorem signus_verify_signature_always_ok_true
    (ex : SignusCommandExecutor) (wh : Int) (did msg sg : String) (cb : Nat) :
    ex.execute (SignusCommand.VerifySignature wh did msg sg cb) =
      [(cb, Except.ok (SignusResultValue.bool true))] := rfl

/-- C3: evaluation of verify_signature at a did for which nothing is stored
and nothing resolves: the handler still delivers success(true), never the
failure UnknownDid. -/
theorem signus_verify_signature_unknown_did_eval :
    exampleExecutor.execute
        (SignusCommand.VerifySignature 1 "DidUnknownToWallet" "msg" "sig" 7) =
      [(7, Except.ok (SignusResultValue.bool true))] := rfl

/-- C4: create_and_store_my_did delivers the failure InvalidIdentityJson to
its callback exactly when did_json does not parse as a DIDInfo, and a
success carrying a triple of strings whenever it does parse. -/
theorem signus_create_and_store_my_did_result_shape
    (ex : SignusCommandExecutor) (wh : Int) (dj : String) (cb : Nat) :
    ex.execute (SignusCommand.CreateAndStoreMyDid wh dj cb) =
      [(cb,
        match DIDInfo.from_json dj with
        | Except.error _ => Except.error SignusError.InvalidIdentityJson
        | Except.ok _ => Except.ok (SignusResultValue.triple "" "" ""))] := by
  show [(cb, (ex._create_and_store_my_did wh dj).map
      (fun r => SignusResultValue.triple r.1 r.2.1 r.2.2))] = _
  unfold SignusCommandExecutor._create_and_store_my_did DIDInfo.from_json
  cases h : parseFlatObject dj <;> simp [Except.map]

/-- C5: evaluation of the did-creation handler at a request naming an
explicit did: it returns success without ever consulting the wallet, so a
wallet already holding a record for that did cannot make it fail with
DidAlreadyExists. -/
theorem signus_create_existing_did_succeeds_eval :
    exampleExecutor._create_and_store_my_did 1 "\x7b\"did\":\"D1\"\x7d" =
      Except.ok ("", "", "") := rfl

/-- C7: the decrypt handler delivers success("") to its callback for every
input, a tampered envelope included; it never delivers the failure
DecryptionFailed. -/
theorem signus_decrypt_always_ok_empty
    (ex : SignusCommandExecutor) (wh : Int) (did em : String) (cb : Nat) :
    ex.execute (SignusCommand.Decrypt wh did em cb) =
      [(cb, Except.ok (SignusResultValue.str ""))] := rfl

/-- C9: execute leaves the executor, and with it its three held services,
unchanged, and running the same command a second time from the resulting
state delivers the same callback trace. -/
theorem signus_execute_frame_and_repeatable
    (ex : SignusCommandExecutor) (command : SignusCommand) :
    (ex.executeSt command).1 = ex ∧
      ((ex.executeSt command).1.executeSt command).2 = (ex.executeSt command).2 := by
  cases command <;> exact ⟨rfl, rfl⟩

/-- C10: across the seven operations, the delivered result is a failure only
for CreateAndStoreMyDid, and there exactly when its did_json does not parse
as a DIDInfo; the other six operations always deliver a success. -/
theorem signus_only_create_can_fail
    (ex : SignusCommandExecutor) (command : SignusCommand) :
    ((ex.execute command).all (fun e => isOkE e.2)) =
      (match command with
       | SignusCommand.CreateAndStoreMyDid _ dj _ => isOkE (DIDInfo.from_json dj)
       | _ => true) := by
  cases command <;>
    first
    | rfl
    | (rename_i wh dj cb
       show ((ex.execute (SignusCommand.CreateAndStoreMyDid wh dj cb)).all
          (fun e => isOkE e.2)) = isOkE (DIDInfo.from_json dj)
       unfold SignusCommandExecutor.execute
         SignusCommandExecutor.create_and_store_my_did
         SignusCommandExecutor._create_and_store_my_did
       cases h : DIDInfo.from_json dj <;> simp [Except.map, isOkE, h])

/-- The SignusService struct of the source; it is declared with no fields
and the Signus trait methods below are modelled on it. -/
structure SignusService where
deriving DecidableEq

/-- Modelled from the spec: an integrity tag over the key pair, the nonce
and the document, standing for the authenticator of the authenticated
encryption of section 4.1.  One byte, keyed by every input. -/
def byteTag (private_key public_key nonce doc : List Nat) : Nat :=
  (private_key.sum + 2 * public_key.sum + 3 * nonce.sum
    + 5 * doc.sum + 7 * doc.length) % 256

/-- Modelled from the spec: Signus::encrypt is declared in the source with
no implementation under the sources; per section 4.1 it is authenticated
encryption under the shared secret of the key pair, bound to the nonce.  The
model carries the document with its integrity tag appended. -/
def SignusService.encrypt (self : SignusService)
    (private_key public_key doc nonce : List Nat) : List Nat :=
  doc ++ [byteTag private_key public_key nonce doc]

/-- Modelled from the spec: Signus::decrypt is declared in the source with
no implementation under the sources; per section 4.1 it fails with
DecryptionFailed whenever authentication fails and never returns partial
plaintext. -/
def SignusService.decrypt (self : SignusService)
    (private_key public_key doc nonce : List Nat) :
    Except CryptoError (List Nat) :=
  match doc.getLast? with
  | none => Except.error CryptoError.DecryptionFailed
  | some t =>
    if t = byteTag private_key public_key nonce doc.dropLast then
      Except.ok doc.dropLast
    else Except.error CryptoError.DecryptionFailed

/-- Deterministic derivation of one key half from seed material; the second
argument separates the public from the private half. -/
def keyFromBytes (s : List Nat) (d : Nat) : List Nat :=
  s.map (fun b => (2 * b + d) % 256)

/-- Modelled from the spec: Signus::create_key_pair_for_signature is
declared in the source with no implementation under the sources; per
section 4.1 generation is deterministic when a seed is given and random
otherwise, so the randomness source appears as an explicit entropy
argument, consulted only when the seed is absent. -/
def SignusService.create_key_pair_for_signature (self : SignusService)
    (seed : Option (List Nat)) (entropy : List Nat) : List Nat × List Nat :=
  match seed with
  | some s => (keyFromBytes s 1, keyFromBytes s 2)
  | none => (keyFromBytes entropy 1, keyFromBytes entropy 2)

def strBytes (s : String) : List Nat :=
  s.data.map Char.toNat

/-- Modelled from the spec: the base58-style textual rendering of key bytes
used across the interfaces of section 6. -/
def encodeKey (bs : List Nat) : String :=
  String.mk (bs.map (fun b => Char.ofNat (65 + b % 58)))

/-- Modelled from the spec: the deterministic conversion of a verification
key to the matching public encryption key of section 4.1. -/
def deriveEncryptionKey (vk : List Nat) : List Nat :=
  vk.map (fun b => (3 * b + 7) % 256)

/-- Modelled from the spec: the full create_and_store_my_did pipeline of
section 4.4, whose key-derivation steps the source body leaves
unimplemented: parse the request, derive the signing key pair from the seed
(or from entropy when no seed is given), compute the did from the first 16
key bytes when none is supplied, and return did, verification key and
public encryption key. -/
def create_and_store_my_did_spec (svc : SignusService) (did_json : String)
    (entropy : List Nat) : Except SignusError (String × String × String) :=
  match DIDInfo.from_json did_json with
  | Except.error e => Except.error e
  | Except.ok info =>
    let kp := svc.create_key_pair_for_signature (info.seed.map strBytes) entropy
    let vk := kp.1
    let did :=
      match info.did with
      | some d => d
      | none => encodeKey (vk.take 16)
    Except.ok (did, encodeKey vk, encodeKey (deriveEncryptionKey vk))

/-- C6: decrypting with the same private key, peer public key and nonce the
ciphertext that encrypt produced over a message returns exactly that
message. -/
theorem signus_encrypt_decrypt_round_trip
    (svc : SignusService) (private_key public_key doc nonce : List Nat) :
    svc.decrypt private_key public_key
        (svc.encrypt private_key public_key doc nonce) nonce =
      Except.ok doc := by
  simp [SignusService.encrypt, SignusService.decrypt,
    List.getLast?_concat, List.dropLast_concat]

/-- C8: key generation is deterministic in the seed: with the same seed the
generated pair is independent of the entropy drawn, and two runs of the
create_and_store_my_did pipeline on the same seed-bearing request deliver
the same did, verification key and encryption key. -/
theorem signus_seeded_keygen_deterministic
    (svc : SignusService) (dj : String) (info : DIDInfo) (s0 : String)
    (e1 e2 : List Nat)
    (hj : DIDInfo.from_json dj = Except.ok info)
    (hs : info.seed = some s0) :
    svc.create_key_pair_for_signature (some (strBytes s0)) e1 =
        svc.create_key_pair_for_signature (some (strBytes s0)) e2 ∧
      create_and_store_my_did_spec svc dj e1 =
        create_and_store_my_did_spec svc dj e2 := by
  constructor
  · rfl
  · unfold create_and_store_my_did_spec
    rw [hj]
    simp [hs, SignusService.create_key_pair_for_signature]

def stewardJson : String :=
  "\x7b\"seed\":\"000000000000000000000000000Steward1\"\x7d"

def stewardSeed : String := "000000000000000000000000000Steward1"

/-- Witness for C8 at the Steward1 request of the specification: two runs
with different entropy agree. -/
theorem signus_seeded_keygen_deterministic_witness :
    SignusService.mk.create_key_pair_for_signature
        (some (strBytes stewardSeed)) [1] =
      SignusService.mk.create_key_pair_for_signature
        (some (strBytes stewardSeed)) [2] ∧
    create_and_store_my_did_spec SignusService.mk stewardJson [1] =
      create_and_store_my_did_spec SignusService.mk stewardJson [2] :=
  signus_seeded_keygen_deterministic SignusService.mk stewardJson
    ⟨none, some stewardSeed, none⟩ stewardSeed [1] [2] rfl rfl
